import Mathlib

/-!
Verification of the debate-orchestration engines of this repository against
its specification.

The development shallowly embeds the two debate engines:

* `Kepler` — `src/kepler/agents.py` (`DebateOrchestrator.run_full_debate`,
  with the optional multi-round counter loop) together with
  `src/kepler/single_agent_baseline.py`; the simplified orchestrator of
  `src/julia_changes/agents.py` (same code without the counter loop) is
  embedded as `JuliaAgents.run_full_debate` over the same data model.
* `Julia` — `src/julia_changes/debate_engine.py` (`DebateEngine.run_debate`
  and its three rounds).

The external language-model service is modelled as an oracle: a function
from the constructed context documents (system prompt, user message) to the
decoded JSON response, or — for `Kepler`, whose claims do not depend on the
prompt text — a record of per-call-site responses.  JSON responses are
modelled by structures holding exactly the fields the code reads; fields
the code reads with `dict.get` are `Option`-valued, fields read with `[...]`
are required.  Python `float` confidences are modelled as `ℚ` (the code
only copies them, never computes with them).  `json.loads` failures and the
absence of any retry are modelled by `Kepler.call_agent` / `Julia.call_llm`
over an attempt-indexed response stream.

Python's `str.format` is modelled by `PyFmt.pyFormat`, because
`debate_engine.py` calls `.format` on templates (`CROSS_EXAM_PROMPT`,
`MODERATOR_R3`) whose literal JSON braces are parsed by Python as
replacement fields: both calls raise `KeyError`, so rounds 2 and 3 of that
engine can never run.  The template strings below are byte-for-byte the
literals of the source (braces written `\x7b`/`\x7d`, apostrophes `\x27`).
-/

set_option maxRecDepth 40000

namespace PyFmt

/-- Keyword-argument lookup of `str.format`: first binding wins. -/
def lookupKw (kwargs : List (String × String)) (name : String) : Option String :=
  (kwargs.find? (fun kv => kv.1 = name)).map (fun kv => kv.2)

/-- Characters ending the field-name part of a replacement field. -/
def fieldNameStop (c : Char) : Bool :=
  c = ':' || c = '!' || c = '\x7d'

/-- Skip a format spec: scan to the brace that closes the replacement field,
counting nested braces; `none` models an unterminated field (`ValueError`). -/
def skipSpec : List Char → Nat → Option (List Char)
  | [], _ => none
  | c :: cs, d =>
    if c = '\x7b' then skipSpec cs (d + 1)
    else if c = '\x7d' then (if d ≤ 1 then some cs else skipSpec cs (d - 1))
    else skipSpec cs d

/-- One left-to-right scan of a format template, as CPython performs it:
`{{`/`}}` are literal braces, `{name}` and `{name:spec}` are replacement
fields resolved against the keyword arguments, and a field whose name is not
among the keyword arguments is a `KeyError` (`none`).  A lone `}` and an
unterminated or converted (`!`) field are also errors (`none`); the real
templates never reach those cases.  Fuel decreases at every step; callers
pass more fuel than the template has characters, so it never runs out. -/
def fmtGo (kwargs : List (String × String)) : Nat → List Char → String → Option String
  | 0, _, _ => none
  | _ + 1, [], acc => some acc
  | fuel + 1, c :: cs, acc =>
    if c = '\x7b' then
      match cs with
      | [] => none
      | d :: cs2 =>
        if d = '\x7b' then
          fmtGo kwargs fuel cs2 (acc.push '\x7b')
        else
          let name : List Char := cs.takeWhile (fun ch => ¬ fieldNameStop ch)
          let rest : List Char := cs.drop name.length
          match rest with
          | '\x7d' :: cs3 =>
            match lookupKw kwargs (String.mk name) with
            | none => none
            | some v => fmtGo kwargs fuel cs3 (acc ++ v)
          | ':' :: cs3 =>
            match skipSpec cs3 1 with
            | none => none
            | some cs4 =>
              match lookupKw kwargs (String.mk name) with
              | none => none
              | some v => fmtGo kwargs fuel cs4 (acc ++ v)
          | _ => none
    else if c = '\x7d' then
      match cs with
      | d :: cs2 => if d = '\x7d' then fmtGo kwargs fuel cs2 (acc.push '\x7d') else none
      | [] => none
    else
      fmtGo kwargs fuel cs (acc.push c)

/-- Model of `template.format(**kwargs)`: `some` is the rendered string,
`none` is an exception (`KeyError` / `ValueError`). -/
def pyFormat (template : String) (kwargs : List (String × String)) : Option String :=
  fmtGo kwargs (template.length + 1) template.toList ""

end PyFmt

namespace Julia

def FACT_CHECKER_R1 : String :=
  "You are FACT_CHECKER, a precise analyst who compares claims against source facts.\n\nYour job: Identify ANY discrepancy between the claim and the truth, no matter how small.\n\nFocus on:\n- Numerical accuracy (exact numbers, percentages, magnitudes)\n- Temporal accuracy (dates, timeframes)\n- Scope accuracy (geographic, demographic)\n- Qualifier accuracy (may/will, some/all, about/exactly)\n\nIMPORTANT: Quote specific text from both claim and truth to support your analysis.\n\nReturn JSON:\n\x7b\n    \"verdict\": \"faithful\" | \"mutated\" | \"uncertain\",\n    \"confidence\": 0.0-1.0,\n    \"arguments\": [\n        \x7b\n            \"id\": \"FC1\",\n            \"text\": \"concise argument statement\",\n            \"evidence_quote\": \"exact quote from claim vs truth\",\n            \"severity\": \"high\" | \"medium\" | \"low\"\n        \x7d\n    ],\n    \"reasoning_summary\": \"2 sentences explaining your position\"\n\x7d"

def SKEPTIC_R1 : String :=
  "You are SKEPTIC, a critical analyst who questions whether apparent mutations actually matter.\n\nYour job: Challenge whether discrepancies constitute meaningful distortion or are acceptable simplifications.\n\nConsider:\n- Is this normal journalistic rounding/paraphrasing?\n- Does the core meaning remain intact?\n- Would a reasonable reader be misled?\n- Is the \"error\" within acceptable margin?\n\nIMPORTANT: Be genuinely critical. If the claim preserves the essential truth, defend it.\n\nReturn JSON:\n\x7b\n    \"verdict\": \"faithful\" | \"mutated\" | \"uncertain\",\n    \"confidence\": 0.0-1.0,\n    \"arguments\": [\n        \x7b\n            \"id\": \"SK1\",\n            \"text\": \"concise argument statement\",\n            \"evidence_quote\": \"relevant quote showing your point\",\n            \"severity\": \"high\" | \"medium\" | \"low\"\n        \x7d\n    ],\n    \"reasoning_summary\": \"2 sentences explaining your position\"\n\x7d"

def CONTEXTUALIST_R1 : String :=
  "You are CONTEXTUALIST, an analyst who evaluates claims in their broader context.\n\nYour job: Assess whether the claim\x27s framing changes the meaning in ways that matter.\n\nConsider:\n- Does omitted context change the interpretation?\n- Are causal implications altered?\n- Is the emotional/rhetorical framing different?\n- What would a typical reader understand vs what\x27s actually true?\n\nIMPORTANT: Focus on meaning and implications, not just literal accuracy.\n\nReturn JSON:\n\x7b\n    \"verdict\": \"faithful\" | \"mutated\" | \"uncertain\",\n    \"confidence\": 0.0-1.0,\n    \"arguments\": [\n        \x7b\n            \"id\": \"CX1\",\n            \"text\": \"concise argument statement\",\n            \"evidence_quote\": \"relevant quote showing your point\",\n            \"severity\": \"high\" | \"medium\" | \"low\"\n        \x7d\n    ],\n    \"reasoning_summary\": \"2 sentences explaining your position\"\n\x7d"

def CROSS_EXAM_PROMPT : String :=
  "You are \x7bagent_name\x7d in Round 2 of a fact-verification debate.\n\nYou have seen the other agents\x27 arguments from Round 1.\n\nYOUR ORIGINAL STANCE:\n\x7bown_stance\x7d\n\nOTHER AGENTS\x27 ARGUMENTS TO RESPOND TO:\n\x7bother_arguments\x7d\n\nFor EACH argument from other agents, you must either:\n1. ATTACK: Explain why the argument is flawed, weak, or irrelevant\n2. CONCEDE: Acknowledge the argument is strong and you accept it\n\nBe specific. Quote evidence. Update your confidence if warranted.\n\nReturn JSON:\n\x7b\n    \"responses\": [\n        \x7b\n            \"target_agent\": \"agent name\",\n            \"target_argument_id\": \"e.g. FC1\",\n            \"action\": \"attack\" | \"concede\",\n            \"response_text\": \"your specific response (2-3 sentences max)\"\n        \x7d\n    ],\n    \"updated_confidence\": 0.0-1.0,\n    \"stance_changed\": true | false,\n    \"new_verdict\": \"faithful\" | \"mutated\" | \"uncertain\" (only if changed)\n\x7d"

def MODERATOR_R3 : String :=
  "You are MODERATOR synthesizing a fact-verification debate.\n\nCLAIM: \"\x7bclaim\x7d\"\nTRUTH: \"\x7btruth\x7d\"\n\nROUND 1 - INITIAL STANCES:\n\x7bround1_summary\x7d\n\nROUND 2 - CROSS-EXAMINATION:\n\x7bround2_summary\x7d\n\nYour task:\n1. Identify where agents AGREE (key agreements)\n2. Identify what remains DISPUTED (unresolved)\n3. Weigh the arguments and deliver a FINAL VERDICT\n\nThe verdict should reflect:\n- Which arguments survived cross-examination\n- Where concessions were made\n- The overall weight of evidence\n\nReturn JSON:\n\x7b\n    \"final_verdict\": \"faithful\" | \"mutated\" | \"uncertain\",\n    \"confidence\": 0.0-1.0,\n    \"majority_position\": \"brief description of majority view\",\n    \"key_agreements\": [\"point 1\", \"point 2\"],\n    \"unresolved_disputes\": [\"dispute 1\"],\n    \"reasoning\": \"3-4 sentences explaining the verdict and why\"\n\x7d"

end Julia


namespace Kepler

/-- `Verdict` of `kepler/agents.py`, `julia_changes/agents.py` and
`kepler/single_agent_baseline.py` (identical in all three). -/
inductive Verdict
  | FAITHFUL
  | MUTATED
  | AMBIGUOUS
deriving DecidableEq, Repr

/-- One accusation record of the prosecutor response (all fields are read
with `dict.get` and a default). -/
structure Accusation where
  type : Option String
  evidence : Option String
  severity : Option String
  explanation : Option String
deriving DecidableEq, Repr

/-- The fields `run_full_debate` reads from a decoded prosecutor response. -/
structure ProsecutionResp where
  accusations : Option (List Accusation)
  overall_assessment : Option String
  confidence : Option ℚ
deriving DecidableEq, Repr

/-- One rebuttal record of the defense response. -/
structure Rebuttal where
  accusation_addressed : Option String
  counter_argument : Option String
  justification : Option String
deriving DecidableEq, Repr

/-- The fields `run_full_debate` reads from a decoded defense response. -/
structure DefenseResp where
  rebuttals : Option (List Rebuttal)
  confidence : Option ℚ
deriving DecidableEq, Repr

/-- The fields `run_full_debate` reads from a decoded epistemologist
response.  The code indexes `recommended_confidence_range[1]`, whose schema
is a two-element list; the range is modelled as a pair accordingly. -/
structure EpiResp where
  verifiable_facts : Option (List String)
  recommended_confidence_range : Option (ℚ × ℚ)
  key_uncertainty : Option String
deriving DecidableEq, Repr

/-- The fields read from a decoded jury-foreman (synthesizer) response. -/
structure JuryResp where
  verdict : Option String
  confidence : Option ℚ
  summary : Option String
deriving DecidableEq, Repr

/-- `AgentResponse` dataclass of `kepler/agents.py`. -/
structure AgentResponse where
  agent_name : String
  arguments : List String
  evidence : List String
  confidence : ℚ
  mutation_types : Option (List String)
deriving DecidableEq, Repr

/-- `DebateResult` dataclass of `kepler/agents.py`.  The transcript entries
are dicts `{agent, response}`; the raw response text is elided and each
entry is represented by its agent tag, which preserves the number and the
order of the agent calls. -/
structure DebateResult where
  claim : String
  truth : String
  prosecutor_response : AgentResponse
  defense_response : AgentResponse
  epistemologist_response : AgentResponse
  final_verdict : Verdict
  verdict_reasoning : String
  confidence : ℚ
  debate_transcript : List String

/-- The environment of one `run_full_debate` call: the decoded JSON
response the service produces at each call site (round-1 prosecution,
defense and epistemologist, the per-round counter responses, and the jury).
Runs in which some `json.loads` fails raise and return nothing; decode
failure and the absence of any retry are modelled by `call_agent` below. -/
structure KOracle where
  prosecution1 : ProsecutionResp
  defense1 : DefenseResp
  epi : Nat → EpiResp
  prosCounter : Nat → ProsecutionResp
  defCounter : Nat → DefenseResp
  jury : JuryResp

/-- Python `str.lower()`, character by character. -/
def pyLower (s : String) : String :=
  String.mk (s.data.map Char.toLower)

/-- Verdict parsing of `run_full_debate` (kepler/agents.py lines 357-363,
julia_changes/agents.py lines 329-335) and of
`single_agent_baseline.verify_claim` (lines 83-89):
`response.get("verdict", "ambiguous").lower()` then a two-way comparison
with an `else AMBIGUOUS` fallthrough. -/
def parseVerdict (verdictField : Option String) : Verdict :=
  let s := pyLower (verdictField.getD "ambiguous")
  if s = "faithful" then Verdict.FAITHFUL
  else if s = "mutated" then Verdict.MUTATED
  else Verdict.AMBIGUOUS

/-- Lines 374-380: the prosecutor `AgentResponse` of the result. -/
def prosecutorAgentResponse (p : ProsecutionResp) : AgentResponse :=
  { agent_name := "Prosecutor"
    arguments := (p.accusations.getD []).map (fun a => a.explanation.getD "")
    evidence := (p.accusations.getD []).map (fun a => a.evidence.getD "")
    confidence := p.confidence.getD 0
    mutation_types := some ((p.accusations.getD []).map (fun a => a.type.getD "")) }

/-- Lines 381-386: the defense `AgentResponse` of the result
(`mutation_types` keeps its dataclass default `None`). -/
def defenseAgentResponse (d : DefenseResp) : AgentResponse :=
  { agent_name := "Defense"
    arguments := (d.rebuttals.getD []).map (fun r => r.counter_argument.getD "")
    evidence := (d.rebuttals.getD []).map (fun r => r.justification.getD "")
    confidence := d.confidence.getD 0
    mutation_types := none }

/-- Lines 387-392: the epistemologist `AgentResponse` of the result;
the confidence is element 1 of `recommended_confidence_range`, default
`[0.5, 0.5]`. -/
def epiAgentResponse (e : EpiResp) : AgentResponse :=
  { agent_name := "Epistemologist"
    arguments := [e.key_uncertainty.getD ""]
    evidence := e.verifiable_facts.getD []
    confidence := (e.recommended_confidence_range.getD (1/2, 1/2)).2
    mutation_types := none }

/-- The loop state of `run_full_debate`: the latest prosecution, defense
and epistemologist responses, and the debate-history list. -/
structure KState where
  pros : ProsecutionResp
  defn : DefenseResp
  epis : EpiResp
  hist : List String

/-- One iteration of the counter-response loop (lines 337-350): the
prosecutor, the defense and the epistemologist are each called once more,
replacing the current responses and appending three history entries. -/
def counterStep (o : KOracle) (s : KState) (k : Nat) : KState :=
  { pros := o.prosCounter k
    defn := o.defCounter k
    epis := o.epi k
    hist := s.hist ++ ["Prosecutor (Counter)", "Defense (Counter)", "Epistemologist"] }

/-- `for round_num in range(2, num_rounds + 1)` of lines 337-350. -/
def counterFold (o : KOracle) (n : Nat) (init : KState) : KState :=
  (List.range' 2 (n - 1)).foldl (counterStep o) init

/-- `random.randint(lo, hi)` (both bounds inclusive) drawing from the
random source `r`. -/
def randint (lo hi r : Nat) : Nat :=
  lo + r % (hi - lo + 1)

/-- `DebateOrchestrator.run_full_debate` of `kepler/agents.py`
(lines 303-397): reset history; draw `num_rounds = random.randint(2, 4)`
once if the argument is `None`; round 1 calls prosecution, defense,
epistemologist; rounds `2..num_rounds` run the counter loop; one final
jury-foreman call; assemble the `DebateResult` from the latest responses
and the parsed jury verdict. -/
def run_full_debate (o : KOracle) (claim truth : String) (num_rounds : Option Nat) (r : Nat) :
    DebateResult :=
  let n := num_rounds.getD (randint 2 4 r)
  let st := counterFold o n
    { pros := o.prosecution1
      defn := o.defense1
      epis := o.epi 1
      hist := ["Prosecutor", "Defense", "Epistemologist"] }
  let verdict_response := o.jury
  { claim := claim
    truth := truth
    prosecutor_response := prosecutorAgentResponse st.pros
    defense_response := defenseAgentResponse st.defn
    epistemologist_response := epiAgentResponse st.epis
    final_verdict := parseVerdict verdict_response.verdict
    verdict_reasoning := verdict_response.summary.getD ""
    confidence := verdict_response.confidence.getD 0
    debate_transcript := st.hist ++ ["Jury Foreman"] }

/-- `DebateOrchestrator._call_agent` (lines 199-220): one request is
issued, its agent tag is appended to the debate history, and the raw
content is decoded once by `json.loads`.  The stream gives the decode
outcome the service would produce on the first, second, ... attempt at this
call site; the code consumes only attempt 0 — a decode failure (`none`)
raises immediately, and no further attempt is ever consulted. -/
def call_agent {α : Type} (history : List String) (agent_name : String)
    (responses : Nat → Option α) : List String × Option α :=
  (history ++ [agent_name], responses 0)

end Kepler

namespace JuliaAgents

/-- `DebateOrchestrator.run_full_debate` of `julia_changes/agents.py`
(lines 302-369): identical to the kepler orchestrator but with exactly one
prosecution, defense and epistemologist call (no counter loop, no round
count) before the jury call. -/
def run_full_debate (o : Kepler.KOracle) (claim truth : String) : Kepler.DebateResult :=
  let prosecution := o.prosecution1
  let defense := o.defense1
  let epistemology := o.epi 1
  let verdict_response := o.jury
  { claim := claim
    truth := truth
    prosecutor_response := Kepler.prosecutorAgentResponse prosecution
    defense_response := Kepler.defenseAgentResponse defense
    epistemologist_response := Kepler.epiAgentResponse epistemology
    final_verdict := Kepler.parseVerdict verdict_response.verdict
    verdict_reasoning := verdict_response.summary.getD ""
    confidence := verdict_response.confidence.getD 0
    debate_transcript := ["Prosecutor", "Defense", "Epistemologist", "Jury Foreman"] }

end JuliaAgents

namespace SingleAgent

/-- The fields `verify_claim` reads from the decoded response of
`kepler/single_agent_baseline.py`. -/
structure SAResponse where
  verdict : Option String
  confidence : Option ℚ
  reasoning : Option String
  mutation_types : Option (List String)
deriving DecidableEq, Repr

/-- `SingleAgentResult` dataclass (`raw_response` keeps the decoded
response). -/
structure SingleAgentResult where
  claim : String
  truth : String
  verdict : Kepler.Verdict
  confidence : ℚ
  reasoning : String
  mutation_types : List String
  raw_response : SAResponse
deriving DecidableEq, Repr

/-- `SingleAgentVerifier.verify_claim` (lines 54-99): one call, then the
same `get`-with-default verdict parse as the orchestrators. -/
def verify_claim (result : SAResponse) (claim truth : String) : SingleAgentResult :=
  { claim := claim
    truth := truth
    verdict := Kepler.parseVerdict result.verdict
    confidence := result.confidence.getD 0
    reasoning := result.reasoning.getD ""
    mutation_types := result.mutation_types.getD []
    raw_response := result }

end SingleAgent

namespace Julia

/-- `VerdictType` of `julia_changes/debate_engine.py`. -/
inductive VerdictType
  | faithful
  | mutated
  | uncertain
deriving DecidableEq, Repr

/-- The enum value-lookup `VerdictType(s)`: `none` models the `ValueError`
raised on a string outside the declared value set. -/
def VerdictType.ofString : String → Option VerdictType
  | "faithful" => some VerdictType.faithful
  | "mutated" => some VerdictType.mutated
  | "uncertain" => some VerdictType.uncertain
  | _ => none

/-- `.value` of a `VerdictType` member. -/
def verdictValue : VerdictType → String
  | VerdictType.faithful => "faithful"
  | VerdictType.mutated => "mutated"
  | VerdictType.uncertain => "uncertain"

/-- `Argument` dataclass; also the shape of the raw round-1 argument dicts
(`id` and `text` are read with `[...]`, the rest with `.get`). -/
structure Argument where
  id : String
  text : String
  evidence_quote : Option String
  severity : Option String
deriving DecidableEq, Repr

/-- `InitialStance` dataclass. -/
structure InitialStance where
  agent : String
  verdict : VerdictType
  confidence : ℚ
  arguments : List Argument
  reasoning_summary : String
deriving DecidableEq, Repr

/-- `CrossExamResponse` dataclass. -/
structure CrossExamResponse where
  agent : String
  target_agent : String
  target_argument_id : String
  action : String
  response_text : String
  updated_confidence : ℚ
deriving DecidableEq, Repr

/-- `ConsensusResult` dataclass. -/
structure ConsensusResult where
  final_verdict : VerdictType
  confidence : ℚ
  majority_position : String
  key_agreements : List String
  unresolved_disputes : List String
  reasoning : String
deriving DecidableEq, Repr

/-- `DebateTranscript` dataclass. -/
structure DebateTranscript where
  case_id : Int
  claim : String
  truth : String
  timestamp : String
  model : String
  round1_stances : List InitialStance
  round2_exchanges : List CrossExamResponse
  round3_consensus : ConsensusResult
deriving DecidableEq, Repr

/-- The fields `_run_round1` reads from a decoded round-1 response
(all read with `[...]` except the optional argument fields). -/
structure R1Response where
  verdict : String
  confidence : ℚ
  arguments : List Argument
  reasoning_summary : String
deriving DecidableEq, Repr

/-- One record of the `responses` list of a round-2 response. -/
structure R2Item where
  target_agent : String
  target_argument_id : String
  action : String
  response_text : String
deriving DecidableEq, Repr

/-- The fields `_run_round2` reads from a decoded round-2 response. -/
structure R2Response where
  responses : List R2Item
  updated_confidence : ℚ
  stance_changed : Option Bool
  new_verdict : Option String
deriving DecidableEq, Repr

/-- The fields `_run_round3` reads from a decoded round-3 response. -/
structure R3Response where
  final_verdict : String
  confidence : ℚ
  majority_position : String
  key_agreements : List String
  unresolved_disputes : List String
  reasoning : String
deriving DecidableEq, Repr

/-- The environment of one `DebateEngine` run: for each round, the decoded
response the service produces for a given (system prompt, user message)
context document.  Decode (`json.loads`) failure and the absence of any
retry are modelled separately by `call_llm`. -/
structure JOracle where
  round1 : String → String → R1Response
  round2 : String → String → R2Response
  round3 : String → String → R3Response

/-- `self.agents` of `DebateEngine.__init__`: the registered analytic
roles; the round-3 moderator is not among them. -/
def jAgents : List String :=
  ["FACT_CHECKER", "SKEPTIC", "CONTEXTUALIST"]

/-- `self.agent_prompts[agent]`; only ever looked up at members of
`jAgents` (an unknown key would raise `KeyError`). -/
def agentPrompt : String → String
  | "FACT_CHECKER" => FACT_CHECKER_R1
  | "SKEPTIC" => SKEPTIC_R1
  | "CONTEXTUALIST" => CONTEXTUALIST_R1
  | _ => ""

/-- The round-1 user prompt (lines 419-427), an f-string of the claim and
the truth only. -/
def round1UserPrompt (claim truth : String) : String :=
  "Analyze this claim-fact pair:\n\nCLAIM (under investigation):\n\"" ++ claim ++
    "\"\n\nTRUTH (source fact):\n\"" ++ truth ++
    "\"\n\nProvide your initial assessment."

/-- The round-2 user message `f"CLAIM: {claim}\nTRUTH: {truth}"`
(line 482). -/
def round2UserMsg (claim truth : String) : String :=
  "CLAIM: " ++ claim ++ "\nTRUTH: " ++ truth

/-- The round-3 user message (line 534). -/
def round3UserMsg : String :=
  "Synthesize the debate and deliver the final verdict."

/-- Abstract rendering of a Python float (used only inside prompt text;
no theorem inspects it). -/
def pyFloatRepr (q : ℚ) : String :=
  toString q

/-- The `{:.0%}` percent rendering (used only inside prompt text). -/
def pctFmt (q : ℚ) : String :=
  toString (round (q * 100) : ℤ) ++ "%"

/-- JSON string rendering used by the `json.dumps` model (escaping
abstracted; no theorem inspects the text). -/
def jsonStr (s : String) : String :=
  "\"" ++ s ++ "\""

/-- JSON rendering of an optional string field. -/
def dumpOptStr : Option String → String
  | none => "null"
  | some s => jsonStr s

/-- `json.dumps(asdict(a))` for one argument (indentation abstracted). -/
def dumpArgument (a : Argument) : String :=
  "\x7b\"id\": " ++ jsonStr a.id ++ ", \"text\": " ++ jsonStr a.text ++
    ", \"evidence_quote\": " ++ dumpOptStr a.evidence_quote ++
    ", \"severity\": " ++ dumpOptStr a.severity ++ "\x7d"

/-- `json.dumps([asdict(a) for a in arguments], indent=2)` (whitespace
abstracted). -/
def dumpArguments (l : List Argument) : String :=
  "[" ++ String.intercalate ", " (l.map dumpArgument) ++ "]"

/-- `own_stance_str` of `_run_round2` (lines 463-465). -/
def ownStanceStr (own : InitialStance) : String :=
  "Verdict: " ++ verdictValue own.verdict ++
    "\nConfidence: " ++ pyFloatRepr own.confidence ++
    "\nArguments: " ++ dumpArguments own.arguments

/-- One block of `other_args_str` (lines 469-474); `if arg.evidence_quote:`
is Python truthiness, so both a missing and an empty quote are skipped. -/
def otherArgsOne (s : InitialStance) : String :=
  "\n" ++ s.agent ++ " (verdict: " ++ verdictValue s.verdict ++ "):\n" ++
    String.join (s.arguments.map (fun arg =>
      "  [" ++ arg.id ++ "] " ++ arg.text ++ "\n" ++
        (match arg.evidence_quote with
         | none => ""
         | some q => if q = "" then "" else "      Evidence: \"" ++ q ++ "\"\n")))

/-- `other_args_str` of `_run_round2` (lines 468-474). -/
def otherArgsStr (others : List InitialStance) : String :=
  String.join (others.map otherArgsOne)

/-- The round-2 system prompt construction (lines 459-480):
`own_stance = next(s for s in stances if s.agent == agent)` (`none` models
the `StopIteration` when the agent has no stance), then
`CROSS_EXAM_PROMPT.format(agent_name=..., own_stance=...,
other_arguments=...)`; the `.format` call is the `pyFormat` model, so a
`KeyError` in it is also `none`. -/
def crossExamPrompt (stances : List InitialStance) (agent : String) : Option String :=
  match stances.find? (fun s => s.agent == agent) with
  | none => none
  | some own =>
    let others := stances.filter (fun s => s.agent != agent)
    PyFmt.pyFormat CROSS_EXAM_PROMPT
      [("agent_name", agent), ("own_stance", ownStanceStr own),
       ("other_arguments", otherArgsStr others)]

/-- The record assembly of lines 490-499: one `CrossExamResponse` per item
of the response's `responses` list, every one carrying the response's
single top-level `updated_confidence`. -/
def buildExchanges (agent : String) (result : R2Response) : List CrossExamResponse :=
  result.responses.map (fun resp =>
    { agent := agent
      target_agent := resp.target_agent
      target_argument_id := resp.target_argument_id
      action := resp.action
      response_text := resp.response_text
      updated_confidence := result.updated_confidence })

/-- The `for agent in self.agents` loop of `_run_round1` (lines 429-448),
threading the accumulated stance list exactly as the source does and also
recording each (system prompt, user message) context document submitted to
the service.  `none` models the `ValueError` of `VerdictType(...)` on an
out-of-set verdict string (the context of the failing call was already
submitted, so it stays in the log). -/
def round1Go (o : JOracle) (claim truth : String) :
    List String → List InitialStance → List (String × String) →
    Option (List InitialStance) × List (String × String)
  | [], st, calls => (some st, calls)
  | agent :: rest, st, calls =>
    let sys := agentPrompt agent
    let user := round1UserPrompt claim truth
    let result := o.round1 sys user
    match VerdictType.ofString result.verdict with
    | none => (none, calls ++ [(sys, user)])
    | some v =>
      round1Go o claim truth rest
        (st ++ [{ agent := agent
                  verdict := v
                  confidence := result.confidence
                  arguments := result.arguments.map (fun a =>
                    { id := a.id
                      text := a.text
                      evidence_quote := a.evidence_quote
                      severity := a.severity })
                  reasoning_summary := result.reasoning_summary }])
        (calls ++ [(sys, user)])

/-- `DebateEngine._run_round1` (lines 415-450). -/
def _run_round1 (o : JOracle) (claim truth : String) : Option (List InitialStance) :=
  (round1Go o claim truth jAgents [] []).1

/-- The context documents `_run_round1` submitted to the service. -/
def round1Calls (o : JOracle) (claim truth : String) : List (String × String) :=
  (round1Go o claim truth jAgents [] []).2

/-- The `for agent in self.agents` loop of `_run_round2` (lines 458-507),
threading the accumulated exchange list exactly as the source does and
recording each submitted context document.  A `none` prompt (StopIteration
or the `.format` `KeyError`) aborts the round before any call is made for
that agent. -/
def round2Go (o : JOracle) (claim truth : String) (stances : List InitialStance) :
    List String → List CrossExamResponse → List (String × String) →
    Option (List CrossExamResponse) × List (String × String)
  | [], ex, calls => (some ex, calls)
  | agent :: rest, ex, calls =>
    match crossExamPrompt stances agent with
    | none => (none, calls)
    | some prompt =>
      let user := round2UserMsg claim truth
      let result := o.round2 prompt user
      round2Go o claim truth stances rest
        (ex ++ buildExchanges agent result) (calls ++ [(prompt, user)])

/-- `DebateEngine._run_round2` (lines 452-507). -/
def _run_round2 (o : JOracle) (claim truth : String) (stances : List InitialStance) :
    Option (List CrossExamResponse) :=
  (round2Go o claim truth stances jAgents [] []).1

/-- The context documents `_run_round2` submitted to the service. -/
def round2Calls (o : JOracle) (claim truth : String) (stances : List InitialStance) :
    List (String × String) :=
  (round2Go o claim truth stances jAgents [] []).2

/-- `r1_summary` of `_run_round3` (lines 516-520). -/
def r1Summary (stances : List InitialStance) : String :=
  String.join (stances.map (fun s =>
    "\n" ++ s.agent ++ ": " ++ verdictValue s.verdict ++ " (" ++ pctFmt s.confidence ++ ")\n" ++
      String.join (s.arguments.map (fun arg => "  [" ++ arg.id ++ "] " ++ arg.text ++ "\n"))))

/-- `r2_summary` of `_run_round3` (lines 523-525). -/
def r2Summary (exchanges : List CrossExamResponse) : String :=
  String.join (exchanges.map (fun e =>
    "\n" ++ e.agent ++ " " ++ e.action ++ "s " ++ e.target_agent ++ "\x27s [" ++
      e.target_argument_id ++ "]: " ++ e.response_text ++ "\n"))

/-- The round-3 prompt `MODERATOR_R3.format(claim=..., truth=...,
round1_summary=..., round2_summary=...)` (lines 527-532). -/
def moderatorPrompt (claim truth : String) (stances : List InitialStance)
    (exchanges : List CrossExamResponse) : Option String :=
  PyFmt.pyFormat MODERATOR_R3
    [("claim", claim), ("truth", truth), ("round1_summary", r1Summary stances),
     ("round2_summary", r2Summary exchanges)]

/-- `DebateEngine._run_round3` (lines 509-548). -/
def _run_round3 (o : JOracle) (claim truth : String) (stances : List InitialStance)
    (exchanges : List CrossExamResponse) : Option ConsensusResult :=
  match moderatorPrompt claim truth stances exchanges with
  | none => none
  | some prompt =>
    let result := o.round3 prompt round3UserMsg
    (VerdictType.ofString result.final_verdict).map (fun v =>
      { final_verdict := v
        confidence := result.confidence
        majority_position := result.majority_position
        key_agreements := result.key_agreements
        unresolved_disputes := result.unresolved_disputes
        reasoning := result.reasoning })

/-- `DebateEngine.run_debate` (lines 550-578): the three rounds in
sequence, then the transcript assembled from the inputs and the round
results.  The wall-clock timestamp and the configured model identifier are
parameters. -/
def run_debate (o : JOracle) (case_id : Int) (claim truth : String)
    (timestamp model : String) : Option DebateTranscript :=
  match _run_round1 o claim truth with
  | none => none
  | some stances =>
    match _run_round2 o claim truth stances with
    | none => none
    | some exchanges =>
      match _run_round3 o claim truth stances exchanges with
      | none => none
      | some consensus =>
        some { case_id := case_id
               claim := claim
               truth := truth
               timestamp := timestamp
               model := model
               round1_stances := stances
               round2_exchanges := exchanges
               round3_consensus := consensus }

/-- `DebateEngine._call_llm` (lines 402-413): one request is issued and its
content decoded once by `json.loads`; the stream gives the decode outcome
of the first, second, ... attempt at this call site, and the code consumes
only attempt 0 — a decode failure raises, and no further attempt is ever
consulted. -/
def call_llm {α : Type} (responses : Nat → Option α) : Option α :=
  responses 0

/-- All argument ids present in a list of stances (specification-side
helper for stating dangling-reference properties). -/
def allArgumentIds (stances : List InitialStance) : List String :=
  ((stances.map (fun s => s.arguments.map (fun a => a.id))).flatten)

end Julia

namespace Fixtures

/-- A decoded prosecutor response carrying none of the optional fields. -/
def pResp0 : Kepler.ProsecutionResp :=
  { accusations := none, overall_assessment := none, confidence := none }

/-- A decoded defense response carrying none of the optional fields. -/
def dResp0 : Kepler.DefenseResp :=
  { rebuttals := none, confidence := none }

/-- A decoded epistemologist response carrying none of the optional
fields. -/
def eResp0 : Kepler.EpiResp :=
  { verifiable_facts := none, recommended_confidence_range := none, key_uncertainty := none }

/-- A jury response whose confidence field is 2 — outside `[0, 1]`. -/
def juryConf2 : Kepler.JuryResp :=
  { verdict := some "mutated", confidence := some 2, summary := none }

/-- A jury response with no verdict field at all. -/
def juryNoVerdict : Kepler.JuryResp :=
  { verdict := none, confidence := none, summary := none }

/-- A kepler run in which every call decodes and the jury reports an
out-of-range confidence. -/
def kOracleConf2 : Kepler.KOracle :=
  { prosecution1 := pResp0, defense1 := dResp0, epi := fun _ => eResp0
    prosCounter := fun _ => pResp0, defCounter := fun _ => dResp0, jury := juryConf2 }

/-- A kepler run in which every call decodes and the jury omits the
verdict field. -/
def kOracleNoVerdict : Kepler.KOracle :=
  { prosecution1 := pResp0, defense1 := dResp0, epi := fun _ => eResp0
    prosCounter := fun _ => pResp0, defCounter := fun _ => dResp0, jury := juryNoVerdict }

/-- Decode outcomes at one call site: the first attempt is malformed, a
second attempt would decode successfully. -/
def c3stream : Nat → Option Kepler.JuryResp :=
  fun n => if n = 0 then none else some juryConf2

/-- Decode outcomes at one call site: every attempt is malformed. -/
def c3streamNone : Nat → Option Kepler.JuryResp :=
  fun _ => none

/-- A well-formed decoded round-1 response. -/
def r1RespOk : Julia.R1Response :=
  { verdict := "faithful", confidence := 1
    arguments := [{ id := "FC1", text := "matches", evidence_quote := none, severity := none }]
    reasoning_summary := "ok" }

/-- A decoded round-2 response citing the argument id "ZZ9", which no
stance-round argument carries. -/
def r2RespDangling : Julia.R2Response :=
  { responses := [{ target_agent := "SKEPTIC", target_argument_id := "ZZ9"
                    action := "attack", response_text := "dangling" }]
    updated_confidence := 1, stance_changed := none, new_verdict := none }

/-- A decoded round-2 response with two actions sharing the single
top-level `updated_confidence`. -/
def r2RespTwo : Julia.R2Response :=
  { responses := [{ target_agent := "SKEPTIC", target_argument_id := "SK1"
                    action := "attack", response_text := "x" },
                  { target_agent := "CONTEXTUALIST", target_argument_id := "CX1"
                    action := "concede", response_text := "y" }]
    updated_confidence := 3/4, stance_changed := some false, new_verdict := none }

/-- A well-formed decoded round-3 response. -/
def r3RespOk : Julia.R3Response :=
  { final_verdict := "mutated", confidence := 9/10, majority_position := "m"
    key_agreements := [], unresolved_disputes := [], reasoning := "r" }

/-- A `DebateEngine` environment in which every call decodes. -/
def jOracle0 : Julia.JOracle :=
  { round1 := fun _ _ => r1RespOk
    round2 := fun _ _ => r2RespDangling
    round3 := fun _ _ => r3RespOk }

/-- Concrete stance-round output of the three registered agents (the shape
`_run_round1` produces), used as input to round 2. -/
def stances0 : List Julia.InitialStance :=
  [{ agent := "FACT_CHECKER", verdict := Julia.VerdictType.mutated, confidence := 9/10
     arguments := [{ id := "FC1", text := "boundary direction reversed"
                     evidence_quote := some "less than 14,550 vs more than 14,500"
                     severity := some "high" }]
     reasoning_summary := "s1" },
   { agent := "SKEPTIC", verdict := Julia.VerdictType.faithful, confidence := 6/10
     arguments := [{ id := "SK1", text := "rounding is acceptable"
                     evidence_quote := none, severity := some "low" }]
     reasoning_summary := "s2" },
   { agent := "CONTEXTUALIST", verdict := Julia.VerdictType.uncertain, confidence := 1/2
     arguments := [{ id := "CX1", text := "framing shifts meaning"
                     evidence_quote := none, severity := some "medium" }]
     reasoning_summary := "s3" }]

/-- A decoded single-agent response with a verdict string outside the
declared set. -/
def saResp0 : SingleAgent.SAResponse :=
  { verdict := some "Definitely Mutated", confidence := some (1/2)
    reasoning := some "because", mutation_types := none }

end Fixtures

/-- The argument ids a round-2 response cites, in order (specification-side
helper). -/
def Julia.citedIds (r : Julia.R2Response) : List String :=
  r.responses.map (fun it => it.target_argument_id)

/-- The `.format` call of `_run_round2` fails for every keyword-argument
assignment: scanning `CROSS_EXAM_PROMPT`, CPython reaches the literal JSON
brace block and looks up the replacement field named `\n    "responses"`,
which is not among the keyword arguments (`KeyError`). -/
theorem pyFormat_crossExam_none (v1 v2 v3 : String) :
    PyFmt.pyFormat Julia.CROSS_EXAM_PROMPT
      [("agent_name", v1), ("own_stance", v2), ("other_arguments", v3)] = none := rfl

/-- The `.format` call of `_run_round3` fails for every keyword-argument
assignment, at the replacement field named `\n    "final_verdict"`. -/
theorem pyFormat_moderator_none (v1 v2 v3 v4 : String) :
    PyFmt.pyFormat Julia.MODERATOR_R3
      [("claim", v1), ("truth", v2), ("round1_summary", v3), ("round2_summary", v4)] =
      none := rfl

/-- No cross-examination context document is ever constructed: the
template formatting fails whatever the stances are. -/
theorem crossExamPrompt_none (stances : List Julia.InitialStance) (agent : String) :
    Julia.crossExamPrompt stances agent = none := by
  unfold Julia.crossExamPrompt
  cases stances.find? (fun s => s.agent == agent) with
  | none => rfl
  | some own => exact pyFormat_crossExam_none _ _ _

/-- Round 2 aborts at its first agent, before any service call. -/
theorem round2Go_cons (o : Julia.JOracle) (c t : String) (st : List Julia.InitialStance)
    (a : String) (rest : List String) (ex : List Julia.CrossExamResponse)
    (calls : List (String × String)) :
    Julia.round2Go o c t st (a :: rest) ex calls = (none, calls) := by
  simp [Julia.round2Go, crossExamPrompt_none]

/-- `_run_round2` always fails. -/
theorem run_round2_eq_none (o : Julia.JOracle) (c t : String)
    (st : List Julia.InitialStance) :
    Julia._run_round2 o c t st = none := by
  simp [Julia._run_round2, Julia.jAgents, round2Go_cons]

/-- `_run_round2` never submits any context document to the service. -/
theorem round2Calls_eq_nil (o : Julia.JOracle) (c t : String)
    (st : List Julia.InitialStance) :
    Julia.round2Calls o c t st = [] := by
  simp [Julia.round2Calls, Julia.jAgents, round2Go_cons]

/-- `run_debate` always fails (in round 1 on a bad verdict string,
otherwise in round 2). -/
theorem run_debate_eq_none (o : Julia.JOracle) (cid : Int) (c t ts md : String) :
    Julia.run_debate o cid c t ts md = none := by
  unfold Julia.run_debate
  cases h : Julia._run_round1 o c t with
  | none => rfl
  | some st => simp [run_round2_eq_none]

/-- Each counter-loop iteration appends exactly three history entries. -/
theorem counterStep_foldl_hist_len (o : Kepler.KOracle) (l : List Nat)
    (init : Kepler.KState) :
    (l.foldl (Kepler.counterStep o) init).hist.length = init.hist.length + 3 * l.length := by
  induction l generalizing init with
  | nil => simp
  | cons k l ih =>
    rw [List.foldl_cons, ih]
    simp [Kepler.counterStep]
    omega

/-- Characterization of the round-1 loop: on success, the produced stances
carry the visited agents in order, and the submitted context documents are
exactly one `(agent system prompt, claim/truth user prompt)` pair per
agent — independently of the service's responses. -/
theorem round1Go_spec (o : Julia.JOracle) (c t : String) (agents : List String) :
    ∀ (st0 : List Julia.InitialStance) (cs0 : List (String × String))
      (stF : List Julia.InitialStance) (csF : List (String × String)),
      Julia.round1Go o c t agents st0 cs0 = (some stF, csF) →
      stF.map (fun s => s.agent) = st0.map (fun s => s.agent) ++ agents ∧
      csF = cs0 ++ agents.map (fun a => (Julia.agentPrompt a, Julia.round1UserPrompt c t)) := by
  induction agents with
  | nil =>
    intro st0 cs0 stF csF h
    simp only [Julia.round1Go, Prod.mk.injEq, Option.some.injEq] at h
    obtain ⟨h1, h2⟩ := h
    subst h1; subst h2; simp
  | cons a rest ih =>
    intro st0 cs0 stF csF h
    rw [Julia.round1Go] at h
    cases hv : Julia.VerdictType.ofString
        (o.round1 (Julia.agentPrompt a) (Julia.round1UserPrompt c t)).verdict with
    | none => rw [hv] at h; simp at h
    | some v =>
      rw [hv] at h
      obtain ⟨h1, h2⟩ := ih _ _ _ _ h
      constructor
      · rw [h1]; simp
      · rw [h2]; simp

/-- Claim C1, counterexample: a run in which every response decodes and the
jury reports confidence 2 returns a `DebateResult` whose confidence is 2 —
no run failure occurs and the out-of-range value is neither rejected nor
clamped, so the entry point does return a result with an out-of-range
confidence. -/
theorem c1_counterexample :
    (Kepler.run_full_debate Fixtures.kOracleConf2 "c" "t" (some 2) 0).confidence = 2 ∧
    ¬ (Kepler.run_full_debate Fixtures.kOracleConf2 "c" "t" (some 2) 0).confidence ≤ 1 := by
  constructor
  · rfl
  · decide

/-- Claim C1, amended: the orchestrator entry points always return a
result; its verdict is the parse of the synthesizer's verdict field (hence
always in the closed three-value set), but its confidence is the
synthesizer response's confidence field passed through without any
validation (0 when the field is missing) — never a validation failure and
never clamped. -/
theorem c1_theorem (o : Kepler.KOracle) (claim truth : String) (nr : Option Nat) (r : Nat) :
    (Kepler.run_full_debate o claim truth nr r).confidence = o.jury.confidence.getD 0 ∧
    (JuliaAgents.run_full_debate o claim truth).confidence = o.jury.confidence.getD 0 ∧
    (Kepler.run_full_debate o claim truth nr r).final_verdict =
      Kepler.parseVerdict o.jury.verdict ∧
    (JuliaAgents.run_full_debate o claim truth).final_verdict =
      Kepler.parseVerdict o.jury.verdict :=
  ⟨rfl, rfl, rfl, rfl⟩

/-- Claim C2, counterexample: when the synthesizer response carries no
verdict field at all, the orchestrators do not fail: they return a complete
`DebateResult` with the substituted verdict `AMBIGUOUS` and confidence 0. -/
theorem c2_counterexample :
    (Kepler.run_full_debate Fixtures.kOracleNoVerdict "c" "t" (some 2) 0).final_verdict =
      Kepler.Verdict.AMBIGUOUS ∧
    (Kepler.run_full_debate Fixtures.kOracleNoVerdict "c" "t" (some 2) 0).confidence = 0 ∧
    (JuliaAgents.run_full_debate Fixtures.kOracleNoVerdict "c" "t").final_verdict =
      Kepler.Verdict.AMBIGUOUS :=
  ⟨rfl, rfl, rfl⟩

/-- Claim C2, amended: an incomplete synthesizer response does not fail the
run — the verdict field defaults to `"ambiguous"` and the confidence to 0,
and a full `DebateResult` is returned built from whatever fields are
present. -/
theorem c2_theorem (o : Kepler.KOracle) (claim truth : String) (nr : Option Nat) (r : Nat) :
    Kepler.parseVerdict none = Kepler.Verdict.AMBIGUOUS ∧
    (Kepler.run_full_debate o claim truth nr r).final_verdict =
      Kepler.parseVerdict o.jury.verdict ∧
    (Kepler.run_full_debate o claim truth nr r).verdict_reasoning = o.jury.summary.getD "" ∧
    (JuliaAgents.run_full_debate o claim truth).final_verdict =
      Kepler.parseVerdict o.jury.verdict :=
  ⟨rfl, rfl, rfl, rfl⟩

/-- Claim C3, counterexample: the first decode attempt at a call site is
malformed and a re-prompt would have produced a well-formed response, yet
the call returns the failure — the second response is never consumed, so no
corrective re-prompt is attempted. -/
theorem c3_counterexample :
    Kepler.call_agent [] "Jury Foreman" Fixtures.c3stream = (["Jury Foreman"], none) ∧
    Fixtures.c3stream 1 = some Fixtures.juryConf2 :=
  ⟨rfl, rfl⟩

/-- Claim C3, amended: `_call_agent` / `_call_llm` issue exactly one
request and decode it once; the outcome is the first attempt's decode
outcome, so it depends only on that first response and a malformed first
response is immediately fatal — no corrective re-prompt exists. -/
theorem c3_theorem (α : Type) (r1 r2 : Nat → Option α) (history : List String) (a : String) :
    (r1 0 = r2 0 → Kepler.call_agent history a r1 = Kepler.call_agent history a r2) ∧
    Kepler.call_agent history a r1 = (history ++ [a], r1 0) ∧
    Julia.call_llm r1 = r1 0 := by
  refine ⟨fun h => ?_, rfl, rfl⟩
  simp [Kepler.call_agent, h]

/-- Witness for C3 at a concrete input: two call sites whose streams agree
on the first attempt (both malformed) but differ on the re-prompt attempt
produce identical outcomes. -/
theorem c3_witness :
    Kepler.call_agent [] "Jury Foreman" Fixtures.c3stream =
      Kepler.call_agent [] "Jury Foreman" Fixtures.c3streamNone :=
  (c3_theorem Kepler.JuryResp Fixtures.c3stream Fixtures.c3streamNone [] "Jury Foreman").1 rfl

/-- Claim C4, counterexample: with a service whose round-2 response cites
the argument id "ZZ9" — absent from every stance-round argument — the
engine performs no validation and no corrective re-prompt: it never even
submits a round-2 context (the call log is empty; prompt construction has
already raised), and the record-assembly code admits the dangling id
verbatim. -/
theorem c4_counterexample :
    Julia._run_round2 Fixtures.jOracle0 "c" "t" Fixtures.stances0 = none ∧
    Julia.round2Calls Fixtures.jOracle0 "c" "t" Fixtures.stances0 = [] ∧
    (Julia.buildExchanges "FACT_CHECKER" Fixtures.r2RespDangling).map
      (fun e => e.target_argument_id) = ["ZZ9"] ∧
    (Julia.allArgumentIds Fixtures.stances0).contains "ZZ9" = false :=
  ⟨run_round2_eq_none _ _ _ _, round2Calls_eq_nil _ _ _ _, rfl, rfl⟩

/-- Claim C4, amended: no `targetArgumentId` validation exists.  The
record-assembly of `_run_round2` admits exactly the ids the response cites,
verbatim and unconstrained by the transcript; and in fact `_run_round2`
always fails during context construction (the `.format` `KeyError` of
`CROSS_EXAM_PROMPT`), before any response is requested, so no CrossExamAction
is ever admitted and no corrective re-prompt ever happens. -/
theorem c4_theorem :
    (∀ (o : Julia.JOracle) (c t : String) (st : List Julia.InitialStance),
      Julia._run_round2 o c t st = none ∧ Julia.round2Calls o c t st = []) ∧
    (∀ (a : String) (r : Julia.R2Response),
      (Julia.buildExchanges a r).map (fun e => e.target_argument_id) = Julia.citedIds r) := by
  constructor
  · intro o c t st
    exact ⟨run_round2_eq_none o c t st, round2Calls_eq_nil o c t st⟩
  · intro a r
    simp [Julia.buildExchanges, Julia.citedIds]

/-- Claim C5: under the random round policy, the kepler orchestrator draws
`random.randint(2, 4)` once; the drawn count is always in {2, 3, 4}, the
whole run equals the run with that count fixed from the start (whatever the
random source would later produce — nothing is re-drawn mid-run), and the
transcript records exactly `3 * n + 1` agent calls for the drawn `n`. -/
theorem c5_theorem (o : Kepler.KOracle) (claim truth : String) (r rOther : Nat) :
    (2 ≤ Kepler.randint 2 4 r ∧ Kepler.randint 2 4 r ≤ 4) ∧
    Kepler.run_full_debate o claim truth none r =
      Kepler.run_full_debate o claim truth (some (Kepler.randint 2 4 r)) rOther ∧
    (Kepler.run_full_debate o claim truth none r).debate_transcript.length =
      3 * Kepler.randint 2 4 r + 1 := by
  have hmod : r % 3 < 3 := Nat.mod_lt r (by norm_num)
  have hr : Kepler.randint 2 4 r = 2 + r % 3 := rfl
  refine ⟨⟨by omega, by omega⟩, rfl, ?_⟩
  show ((Kepler.counterFold o (Kepler.randint 2 4 r)
      { pros := o.prosecution1, defn := o.defense1, epis := o.epi 1
        hist := ["Prosecutor", "Defense", "Epistemologist"] }).hist ++
      ["Jury Foreman"]).length = 3 * Kepler.randint 2 4 r + 1
  rw [List.length_append, Kepler.counterFold, counterStep_foldl_hist_len]
  simp only [List.length_range', List.length_cons, List.length_nil, List.length_singleton]
  omega

/-- Claim C6 (code bug): no cross-examination round can ever run.  At the
spec's own end-to-end inputs, `_run_round2` submits no context document to
the service and fails: `CROSS_EXAM_PROMPT.format(...)` raises `KeyError`
because the template's literal JSON braces are parsed as replacement
fields, so the cross-examination context the claim speaks about is never
constructed at all. -/
theorem c6_theorem :
    Julia.round2Calls Fixtures.jOracle0 "less than 14,550 people have died"
      "more than 14,500 deaths have been confirmed" Fixtures.stances0 = [] ∧
    Julia._run_round2 Fixtures.jOracle0 "less than 14,550 people have died"
      "more than 14,500 deaths have been confirmed" Fixtures.stances0 = none ∧
    Julia.crossExamPrompt Fixtures.stances0 "FACT_CHECKER" = none :=
  ⟨round2Calls_eq_nil _ _ _ _, run_round2_eq_none _ _ _ _, crossExamPrompt_none _ _⟩

/-- Claim C7: whenever the stance round completes, it has produced exactly
one `InitialStance` per registered analytic role, in registration order,
and the context documents it submitted are exactly one (role system prompt,
claim-and-truth user prompt) pair per role — an expression not mentioning
the service's responses, so no role's stance context contains any other
role's output. -/
theorem c7_theorem (o : Julia.JOracle) (claim truth : String)
    (stances : List Julia.InitialStance)
    (h : Julia._run_round1 o claim truth = some stances) :
    stances.map (fun s => s.agent) = Julia.jAgents ∧
    Julia.round1Calls o claim truth =
      Julia.jAgents.map (fun a => (Julia.agentPrompt a, Julia.round1UserPrompt claim truth)) := by
  have hp : Julia.round1Go o claim truth Julia.jAgents [] [] =
      (some stances, (Julia.round1Go o claim truth Julia.jAgents [] []).2) := by
    rw [← h]; rfl
  obtain ⟨h1, h2⟩ := round1Go_spec o claim truth Julia.jAgents [] [] stances _ hp
  refine ⟨by simpa using h1, ?_⟩
  rw [Julia.round1Calls, h2]
  simp

/-- Witness for C7 at a concrete input: with a service that always answers
a well-formed stance, round 1 completes and its call log is the
oracle-independent list of per-role contexts. -/
theorem c7_witness :
    Julia.round1Calls Fixtures.jOracle0 "c" "t" =
      Julia.jAgents.map (fun a => (Julia.agentPrompt a, Julia.round1UserPrompt "c" "t")) := by
  have hs : (Julia._run_round1 Fixtures.jOracle0 "c" "t").isSome = true := by decide
  exact (c7_theorem Fixtures.jOracle0 "c" "t"
    ((Julia._run_round1 Fixtures.jOracle0 "c" "t").get hs) (Option.some_get hs).symm).2

/-- Claim C8: the claim and source-text inputs are returned character for
character in every result: the kepler and julia_changes orchestrator
results carry them verbatim, and whenever `DebateEngine.run_debate`
returns a transcript its claim and truth fields equal the inputs (it in
fact never returns one — see C6). -/
theorem c8_theorem (ko : Kepler.KOracle) (jo : Julia.JOracle) (claim truth : String)
    (nr : Option Nat) (r : Nat) (cid : Int) (ts md : String) :
    (Kepler.run_full_debate ko claim truth nr r).claim = claim ∧
    (Kepler.run_full_debate ko claim truth nr r).truth = truth ∧
    (JuliaAgents.run_full_debate ko claim truth).claim = claim ∧
    (JuliaAgents.run_full_debate ko claim truth).truth = truth ∧
    (Julia.run_debate jo cid claim truth ts md).map (fun tr => (tr.claim, tr.truth)) =
      (Julia.run_debate jo cid claim truth ts md).map (fun _ => (claim, truth)) := by
  refine ⟨rfl, rfl, rfl, rfl, ?_⟩
  rw [run_debate_eq_none]
  rfl

/-- Claim C9: the verdict parse at the synthesizer boundary of the kepler
orchestrator and of the single-agent baseline is the total function
`parseVerdict`: a missing verdict field and any string whose lowercasing is
neither "faithful" nor "mutated" are mapped to `AMBIGUOUS`, and both call
sites return exactly its value. -/
theorem c9_theorem (s : String) (sa : SingleAgent.SAResponse) (ko : Kepler.KOracle)
    (claim truth : String) (nr : Option Nat) (r : Nat) :
    Kepler.parseVerdict none = Kepler.Verdict.AMBIGUOUS ∧
    (Kepler.pyLower s ≠ "faithful" → Kepler.pyLower s ≠ "mutated" →
      Kepler.parseVerdict (some s) = Kepler.Verdict.AMBIGUOUS) ∧
    (SingleAgent.verify_claim sa claim truth).verdict = Kepler.parseVerdict sa.verdict ∧
    (Kepler.run_full_debate ko claim truth nr r).final_verdict =
      Kepler.parseVerdict ko.jury.verdict := by
  refine ⟨rfl, fun h1 h2 => ?_, rfl, rfl⟩
  simp only [Kepler.parseVerdict, Option.getD_some]
  rw [if_neg h1, if_neg h2]

/-- Witness for C9 at a concrete input: an arbitrary verdict string is
absorbed into `AMBIGUOUS`. -/
theorem c9_witness :
    Kepler.parseVerdict (some "Totally Bogus") = Kepler.Verdict.AMBIGUOUS :=
  ( c9_theorem "Totally Bogus" Fixtures.saResp0 Fixtures.kOracleConf2 "c" "t" none 0).2.1
    (by decide) (by decide)

/-- Claim C10: every `CrossExamResponse` the round-2 record assembly
produces for one agent turn carries that agent's name and the response's
single top-level `updated_confidence` — the per-record field is a copy, so
confidence is per-agent per-round, not per-action. -/
theorem c10_theorem (a : String) (r : Julia.R2Response) (e : Julia.CrossExamResponse)
    (he : e ∈ Julia.buildExchanges a r) :
    e.updated_confidence = r.updated_confidence ∧ e.agent = a := by
  simp only [Julia.buildExchanges, List.mem_map] at he
  obtain ⟨it, hit, rfl⟩ := he
  exact ⟨rfl, rfl⟩

/-- Witness for C10 at a concrete input: the first of two actions of one
turn carries the turn's top-level confidence. -/
theorem c10_witness :
    ({ agent := "FACT_CHECKER", target_agent := "SKEPTIC", target_argument_id := "SK1"
       action := "attack", response_text := "x"
       updated_confidence := 3/4 } : Julia.CrossExamResponse).updated_confidence =
      Fixtures.r2RespTwo.updated_confidence :=
  ( c10_theorem "FACT_CHECKER" Fixtures.r2RespTwo _ (by exact List.mem_cons_self _ _)).1
